import Mathlib

/-
  Verification of the Monitor110-revival alert engine (src/backend/app.py).

  The Python backend is shallowly embedded below. Pure helper functions
  (analyze_sentiment, keyword extraction-independent matching, the urgency
  logic of analyze_signals_with_llm) become Lean functions; the stateful
  scheduled alert check (run_scheduled_alert_check, which mutates the global
  sent_alert_cache dict) becomes explicit state passing over an association
  list; the Telegram transport (send_telegram_alert) and the VADER compound
  scorer (analyzer.polarity_scores) are external collaborators and are
  modeled as function parameters (an oracle String -> Bool for the transport,
  String -> Rat for the scorer). Timestamps (Python time.time() floats,
  compared against the 14400-second cooldown) are modeled as integers.
-/

/-! ## String utilities

Python's str.lower() and the substring operator `in` are modeled over the
character lists underlying Lean strings. Char.toLower agrees with Python's
lower() on the ASCII texts involved. -/

/-- Model of Python str.lower(): lowercase every character. -/
def lowerStr (s : String) : String := String.mk (s.data.map Char.toLower)

/-- Does the second character list start with the first? -/
def charsStarts : List Char → List Char → Bool
  | [], _ => true
  | _ :: _, [] => false
  | a :: as, b :: bs => a == b && charsStarts as bs

/-- Does the second character list contain the first as a contiguous run? -/
def charsHas (pat : List Char) : List Char → Bool
  | [] => pat.isEmpty
  | c :: rest => charsStarts pat (c :: rest) || charsHas pat rest

/-- Model of Python `pat in hay` on strings: contiguous substring test. -/
def strHas (hay pat : String) : Bool := charsHas pat.data hay.data

/-! ## Data model (section 3 of the spec, mirroring app.py dict shapes) -/

/-- Three-way sentiment label produced by analyze_sentiment. -/
inductive Label where
  | Positive
  | Neutral
  | Negative
deriving DecidableEq

/-- Urgency tier attached by analyze_signals_with_llm. -/
inductive Urgency where
  | low
  | medium
  | high
  | critical
deriving DecidableEq

/-- A raw signal as produced by the acquisition layer (fetch_all_signals). -/
structure Signal where
  id : String
  source : String
  headline : String
  content : String
  keywords : List String
deriving DecidableEq

/-- A signal after classification by analyze_signals_with_llm. The formatted
ai_analysis / recommendation presentation strings of the Python dict are not
modeled; sentiment_score is kept unrounded (the code rounds it to 3 decimals
for display only). -/
structure AnalyzedSignal where
  id : String
  source : String
  headline : String
  content : String
  keywords : List String
  sentiment : Label
  sentimentScore : ℚ
  urgency : Urgency
deriving DecidableEq

/-- A registered user as stored in data.json: username key, Telegram chat id,
keyword watchlist. An absent chat id is modeled as the empty string, matching
Python truthiness of `if chat_id`. -/
structure User where
  username : String
  chatId : String
  watchlist : List String
deriving DecidableEq

/-- One entry of the matches_found list built by trigger_check. -/
structure MatchRecord where
  username : String
  signalId : String
  headline : String
  matchedKeywords : List String
  sentiment : Label
  urgency : Urgency
deriving DecidableEq

/-- Ghost trace of one successful scheduled send: the code only counts sends,
but the trace records for whom and for which signal/topic a send succeeded. -/
structure Dispatch where
  username : String
  signalId : String
  topic : String
  chatId : String
deriving DecidableEq

/-- The global sent_alert_cache ({user: {topic: timestamp}}), flattened to an
association list keyed by (username, topic). Updates cons a fresh entry, and
lookups take the newest; the code's creation of empty per-user sub-dicts has
no observable effect on any (user, topic) lookup and is not represented. -/
abbrev Cache := List ((String × String) × Int)

/-- Lookup of sent_alert_cache[user][topic] as an optional value. -/
def cacheLookup (cache : Cache) (u t : String) : Option Int :=
  (cache.find? (fun e => e.1 == (u, t))).map (fun e => e.2)

/-- Model of sent_alert_cache[username].get(topic, 0): missing entries read
as timestamp 0. -/
def cacheGetD (cache : Cache) (u t : String) : Int :=
  (cacheLookup cache u t).getD 0

/-! ## Sentiment and urgency classification (analyze_sentiment,
analyze_signals_with_llm in app.py) -/

/-- Embedding of analyze_sentiment: the VADER compound score is an external
primitive, passed as the oracle argument; thresholding is the code's. -/
def analyze_sentiment (score : String → ℚ) (text : String) : Label × ℚ :=
  let compound := score text
  (if mkRat 1 20 ≤ compound then Label.Positive
   else if compound ≤ -mkRat 1 20 then Label.Negative
   else Label.Neutral, compound)

/-- The crisis-lexeme test of analyze_signals_with_llm:
"crash" in full_text.lower() or "plunge" in full_text.lower(). -/
def containsCrisis (lowerText : String) : Bool :=
  strHas lowerText ("crash") || strHas lowerText ("plunge")

/-- Per-signal body of the loop in analyze_signals_with_llm: VADER sentiment
on headline-space-content, then the urgency ladder. Note that both the
score test and the crisis-lexeme test sit inside the Negative branch. -/
def classifySignal (score : String → ℚ) (s : Signal) : AnalyzedSignal :=
  let fullText := s.headline ++ " " ++ s.content
  let ls := analyze_sentiment score fullText
  let urgency :=
    if ls.1 = Label.Negative then
      let afterScore := if ls.2 < -mkRat 1 2 then Urgency.high else Urgency.low
      if containsCrisis (lowerStr fullText) then Urgency.critical else afterScore
    else Urgency.low
  { id := s.id, source := s.source, headline := s.headline,
    content := s.content, keywords := s.keywords,
    sentiment := ls.1, sentimentScore := ls.2, urgency := urgency }

/-- Embedding of analyze_signals_with_llm restricted to its analyzed-signal
output (the bearish/bullish counters and the market_summary string feed only
the returned summary text, which no property below mentions). -/
def analyze_signals_with_llm (score : String → ℚ) (signals : List Signal) :
    List AnalyzedSignal :=
  signals.map (classifySignal score)

/-- The admission filter of trigger_check, line for line:
a signal is skipped iff sentiment != Negative and urgency not in
[critical, high]; this is the complement. -/
def passesFilter (a : AnalyzedSignal) : Bool :=
  !((a.sentiment != Label.Negative) &&
    !(a.urgency == Urgency.critical || a.urgency == Urgency.high))

/-! ## Keyword matching (shared by trigger_check and
run_scheduled_alert_check) -/

/-- Deduplication of a keyword list, standing in for Python set(...) whose
iteration order is implementation-defined; this keeps the last occurrence of
each element, one fixed deterministic choice of that order. -/
def dedupKeys : List String → List String
  | [] => []
  | x :: xs =>
    let d := dedupKeys xs
    if d.contains x then d else x :: d

/-- Embedding of set([k.lower() for k in sk]) & set([k.lower() for k in wl]):
both sides lowercased, then intersected. The result is a list whose members
are exactly the common lowercase keywords. -/
def kwInter (sk wl : List String) : List String :=
  (dedupKeys (sk.map lowerStr)).filter (fun k => (wl.map lowerStr).contains k)

/-! ## On-demand path: the trigger-check endpoint (app.py trigger_check) -/

/-- Inner user loop of trigger_check for one admitted signal: for each user,
intersect lowered keyword sets; on a non-empty match, attempt the Telegram
send when the chat id is truthy, counting only sends the transport confirms,
and append a match record unconditionally. Returns (alerts_sent contribution,
match records in user order). -/
def triggerUsers (transport : String → Bool) (s : AnalyzedSignal) :
    List User → Nat × List MatchRecord
  | [] => (0, [])
  | u :: rest =>
    let r := triggerUsers transport s rest
    match kwInter s.keywords u.watchlist with
    | [] => r
    | k :: ks =>
      let sent := if (u.chatId != "") && transport u.chatId then 1 else 0
      (sent + r.1,
       { username := u.username, signalId := s.id, headline := s.headline,
         matchedKeywords := k :: ks, sentiment := s.sentiment,
         urgency := s.urgency } :: r.2)

/-- Outer signal loop of trigger_check: signals failing the
Negative-or-high/critical filter are skipped (continue); admitted signals run
the user loop, accumulating alerts_sent and matches_found in order. -/
def triggerSignals (transport : String → Bool) (users : List User) :
    List AnalyzedSignal → Nat × List MatchRecord
  | [] => (0, [])
  | s :: rest =>
    let r := triggerSignals transport users rest
    if passesFilter s then
      let x := triggerUsers transport s users
      (x.1 + r.1, x.2 ++ r.2)
    else r

/-- Embedding of the trigger_check endpoint body: classify the fetched
signals, run the nested loops, and return
(alerts_sent, matches_found, details) as the endpoint's JSON does. -/
def trigger_check (score : String → ℚ) (transport : String → Bool)
    (signals : List Signal) (users : List User) :
    Nat × Nat × List MatchRecord :=
  let analyzed := analyze_signals_with_llm score signals
  let r := triggerSignals transport users analyzed
  (r.1, r.2.length, r.2)

/-! ## Scheduled path (app.py run_scheduled_alert_check) -/

/-- The fixed bearish lexicon of run_scheduled_alert_check. -/
def bearish_keywords : List String :=
  ["crash", "fall", "drop", "plunge", "loss", "sell-off", "collapse"]

/-- is_bearish = any(kw in headline for kw in bearish_keywords), applied to
the already-lowercased headline. -/
def isBearish (headlineLower : String) : Bool :=
  bearish_keywords.any (fun kw => strHas headlineLower kw)

/-- Per-user signal loop of run_scheduled_alert_check, processing signals in
fetch order with the per-run counter c and the shared cache threaded through.
Mirrors the loop body: cap check (break at 2), bearish-headline gate,
keyword match, topic = first matched keyword, 4-hour cooldown against
sent_alert_cache[user].get(topic, 0), then send; only a confirmed send
increments the counters and records the cache entry. Returns the updated
cache and the trace of successful sends. -/
def processUser (transport : String → Bool) (now : Int) (u : User) :
    List Signal → Cache → Nat → Cache × List Dispatch
  | [], cache, _ => (cache, [])
  | s :: rest, cache, c =>
    if 2 ≤ c then (cache, [])
    else if isBearish (lowerStr s.headline) = false then
      processUser transport now u rest cache c
    else
      match kwInter s.keywords u.watchlist with
      | [] => processUser transport now u rest cache c
      | topic :: _ =>
        if now - cacheGetD cache u.username topic < 14400 then
          processUser transport now u rest cache c
        else if (u.chatId != "") && transport u.chatId then
          let r := processUser transport now u rest
            (((u.username, topic), now) :: cache) (c + 1)
          (r.1, { username := u.username, signalId := s.id, topic := topic,
                  chatId := u.chatId } :: r.2)
        else processUser transport now u rest cache c

/-- The per-user loop with the per-run cap removed: it greedily dispatches
every eligible signal in fetch order. Reference definition used to state that
the capped loop dispatches exactly the earliest eligible signals. -/
def processUserNoCap (transport : String → Bool) (now : Int) (u : User) :
    List Signal → Cache → Cache × List Dispatch
  | [], cache => (cache, [])
  | s :: rest, cache =>
    if isBearish (lowerStr s.headline) = false then
      processUserNoCap transport now u rest cache
    else
      match kwInter s.keywords u.watchlist with
      | [] => processUserNoCap transport now u rest cache
      | topic :: _ =>
        if now - cacheGetD cache u.username topic < 14400 then
          processUserNoCap transport now u rest cache
        else if (u.chatId != "") && transport u.chatId then
          let r := processUserNoCap transport now u rest
            (((u.username, topic), now) :: cache)
          (r.1, { username := u.username, signalId := s.id, topic := topic,
                  chatId := u.chatId } :: r.2)
        else processUserNoCap transport now u rest cache

/-- Outer user loop of run_scheduled_alert_check: users in stored order, the
cache threaded across users, each user starting with a zero per-run counter;
successful sends accumulate in order. -/
def runUsers (transport : String → Bool) (now : Int) (signals : List Signal) :
    List User → Cache → Cache × List Dispatch
  | [], cache => (cache, [])
  | u :: rest, cache =>
    let r1 := processUser transport now u signals cache 0
    let r2 := runUsers transport now signals rest r1.1
    (r2.1, r1.2 ++ r2.2)

/-- Embedding of one run of run_scheduled_alert_check: the fetched signals,
registered users, run timestamp (time.time()), transport oracle and the
incoming sent_alert_cache are the run's inputs; the result is the outgoing
cache and the trace of successful sends (whose length is the printed
alerts_sent). The code's early return when no user is registered coincides
with the empty-user loop. -/
def run_scheduled_alert_check (transport : String → Bool) (now : Int)
    (users : List User) (signals : List Signal) (cache : Cache) :
    Cache × List Dispatch :=
  runUsers transport now signals users cache

/-! ## Counting characterizations used to state the on-demand counters -/

/-- Number of users whose watchlist matches the signal's keywords. -/
def userMatches (s : AnalyzedSignal) (users : List User) : Nat :=
  users.countP (fun u => !(kwInter s.keywords u.watchlist).isEmpty)

/-- Number of users whose watchlist matches the signal's keywords, whose
chat id is non-empty and for whom the transport confirms the send. -/
def userSends (transport : String → Bool) (s : AnalyzedSignal)
    (users : List User) : Nat :=
  users.countP (fun u => !(kwInter s.keywords u.watchlist).isEmpty
    && (u.chatId != "") && transport u.chatId)

/-- Total matches_found over the admitted signals. -/
def matchesFoundCount (users : List User)
    (analyzed : List AnalyzedSignal) : Nat :=
  ((analyzed.filter passesFilter).map (fun s => userMatches s users)).sum

/-- Total alerts_sent over the admitted signals. -/
def alertsSentCount (transport : String → Bool) (users : List User)
    (analyzed : List AnalyzedSignal) : Nat :=
  ((analyzed.filter passesFilter).map
    (fun s => userSends transport s users)).sum

/-! # Helper lemmas -/

/-- Looking up a cache entry under a freshly consed record. -/
theorem cacheLookup_cons (e : (String × String) × Int) (cache : Cache)
    (u t : String) :
    cacheLookup (e :: cache) u t =
      if e.1 = (u, t) then some e.2 else cacheLookup cache u t := by
  by_cases h : e.1 = (u, t) <;>
    simp [cacheLookup, List.find?_cons, h]

/-- Once the per-run counter is at the cap, the per-user loop does nothing:
it leaves the cache untouched and sends no alert. -/
theorem processUser_stop (transport : String → Bool) (now : Int) (u : User)
    (signals : List Signal) (cache : Cache) (c : Nat) (h : 2 ≤ c) :
    processUser transport now u signals cache c = (cache, []) := by
  cases signals <;> simp [processUser, h]

/-! # Theorems -/

/-- C5: for every scorer and every text, analyze_sentiment labels Positive
exactly when the compound score is at least 0.05, Negative exactly when it is
at most -0.05, and Neutral exactly when it lies strictly between, with both
boundary values inclusive on their respective sides. -/
theorem sentiment_thresholds (score : String → ℚ) (text : String) :
    ((analyze_sentiment score text).1 = Label.Positive ↔
      mkRat 1 20 ≤ score text)
    ∧ ((analyze_sentiment score text).1 = Label.Negative ↔
      score text ≤ -mkRat 1 20)
    ∧ ((analyze_sentiment score text).1 = Label.Neutral ↔
      (-mkRat 1 20 < score text ∧ score text < mkRat 1 20)) := by
  have hpos : (0 : ℚ) < mkRat 1 20 := by decide
  unfold analyze_sentiment
  dsimp only
  split_ifs with h1 h2 <;> simp_all <;> linarith

/-- C1 counterexample: a signal whose lowercased headline-plus-content
contains the crisis lexeme "crash" but whose VADER compound score is 0.5
(label Positive) is classified with urgency low, not critical: the crisis
check of analyze_signals_with_llm sits inside the Negative branch, so the
claimed escalation regardless of label does not happen. -/
theorem crisis_positive_not_critical :
    (containsCrisis (lowerStr
      ("Markets rally after crash fears fade" ++ " " ++ "")) = true)
    ∧ ((classifySignal (fun _ => mkRat 1 2)
        { id := "s1", source := "src",
          headline := "Markets rally after crash fears fade", content := "",
          keywords := ["stocks"] }).sentiment = Label.Positive)
    ∧ ((classifySignal (fun _ => mkRat 1 2)
        { id := "s1", source := "src",
          headline := "Markets rally after crash fears fade", content := "",
          keywords := ["stocks"] }).urgency = Urgency.low) := by
  refine ⟨by decide, by decide, by decide⟩

/-- C1 as amended: the crisis-lexeme escalation to critical applies exactly
to Negative-labeled signals; a signal whose label is Positive or Neutral is
assigned urgency low even when a crisis lexeme is present. -/
theorem crisis_critical_only_when_negative (score : String → ℚ) (s : Signal) :
    ((classifySignal score s).sentiment = Label.Negative →
      containsCrisis (lowerStr (s.headline ++ " " ++ s.content)) = true →
      (classifySignal score s).urgency = Urgency.critical)
    ∧ ((classifySignal score s).sentiment ≠ Label.Negative →
      (classifySignal score s).urgency = Urgency.low) := by
  unfold classifySignal
  dsimp only
  split_ifs <;> simp_all

/-- Witness for the amended C1 at a concrete Negative crisis signal. -/
theorem crisis_critical_only_when_negative_witness :
    (classifySignal (fun _ => -mkRat 3 5)
      { id := "sig1", source := "Bloomberg",
        headline := "Bitcoin crashes 15%", content := "Markets tumble.",
        keywords := ["Bitcoin"] }).urgency = Urgency.critical :=
  (crisis_critical_only_when_negative (fun _ => -mkRat 3 5) _).1
    (by decide) (by decide)

/-- C10: the classification step assigns urgency high or critical only inside
its Negative branch, so a classified signal with urgency high or critical is
Negative-labeled, and the trigger-check admission filter (Negative OR
urgency high/critical) admits exactly the Negative-labeled signals. -/
theorem urgency_implies_negative (score : String → ℚ) (s : Signal) :
    (((classifySignal score s).urgency = Urgency.high
        ∨ (classifySignal score s).urgency = Urgency.critical) →
      (classifySignal score s).sentiment = Label.Negative)
    ∧ (passesFilter (classifySignal score s) = true ↔
      (classifySignal score s).sentiment = Label.Negative) := by
  unfold passesFilter classifySignal
  dsimp only
  split_ifs <;> simp_all

/-- Witness for C10 at a concrete critical signal. -/
theorem urgency_implies_negative_witness :
    (classifySignal (fun _ => -mkRat 3 5)
      { id := "sig1", source := "Bloomberg",
        headline := "Bitcoin crashes 15%", content := "Markets tumble.",
        keywords := ["Bitcoin"] }).sentiment = Label.Negative :=
  (urgency_implies_negative (fun _ => -mkRat 3 5) _).1 (Or.inr (by decide))

/-- C8: keyword matching lowercases both sides before intersecting, so the
matched set is unchanged under any case transformation of either the signal
keywords or the watchlist (two lists related by equal lowercase images match
identically); and an empty intersection produces no alert: the on-demand
user loop and the scheduled per-user loop both skip the pair entirely. -/
theorem keyword_match_case_insensitive :
    (∀ xs xs' ys : List String, xs.map lowerStr = xs'.map lowerStr →
      kwInter xs ys = kwInter xs' ys)
    ∧ (∀ xs ys ys' : List String, ys.map lowerStr = ys'.map lowerStr →
      kwInter xs ys = kwInter xs ys')
    ∧ (∀ (transport : String → Bool) (s : AnalyzedSignal) (u : User)
        (rest : List User), kwInter s.keywords u.watchlist = [] →
      triggerUsers transport s (u :: rest) = triggerUsers transport s rest)
    ∧ (∀ (transport : String → Bool) (now : Int) (u : User) (s : Signal)
        (rest : List Signal) (cache : Cache) (c : Nat),
        kwInter s.keywords u.watchlist = [] →
      processUser transport now u (s :: rest) cache c
        = processUser transport now u rest cache c) := by
  refine ⟨?_, ?_, ?_, ?_⟩
  · intro xs xs' ys h
    unfold kwInter
    rw [h]
  · intro xs ys ys' h
    unfold kwInter
    rw [h]
  · intro transport s u rest h
    simp [triggerUsers, h]
  · intro transport now u s rest cache c h
    by_cases hcap : 2 ≤ c
    · rw [processUser_stop _ _ _ _ _ _ hcap,
        processUser_stop _ _ _ _ _ _ hcap]
    · cases hb : isBearish (lowerStr s.headline) <;>
        simp [processUser, hcap, hb, h]

/-- Witness for C8 at concrete inputs: case-varied keyword lists match the
same set, and a non-matching (signal, user) pair is skipped by both loops. -/
theorem keyword_match_case_insensitive_witness :
    (kwInter ["BiTcoin"] ["BITCOIN"] = kwInter ["bitcoin"] ["BITCOIN"])
    ∧ (kwInter ["bitcoin"] ["BiTcOiN"] = kwInter ["bitcoin"] ["bitcoin"])
    ∧ (triggerUsers (fun _ => true)
        { id := "s", source := "s", headline := "h", content := "c",
          keywords := ["gold"], sentiment := Label.Negative,
          sentimentScore := 0, urgency := Urgency.high }
        [{ username := "a", chatId := "1", watchlist := ["oil"] }]
        = triggerUsers (fun _ => true)
          { id := "s", source := "s", headline := "h", content := "c",
            keywords := ["gold"], sentiment := Label.Negative,
            sentimentScore := 0, urgency := Urgency.high } [])
    ∧ (processUser (fun _ => true) 1000000
        { username := "a", chatId := "1", watchlist := ["oil"] }
        [{ id := "s", source := "s", headline := "gold crash", content := "c",
           keywords := ["gold"] }] [] 0
        = processUser (fun _ => true) 1000000
          { username := "a", chatId := "1", watchlist := ["oil"] } [] [] 0) :=
  ⟨keyword_match_case_insensitive.1 _ _ _ (by decide),
   keyword_match_case_insensitive.2.1 _ _ _ (by decide),
   keyword_match_case_insensitive.2.2.1 _ _ _ _ (by decide),
   keyword_match_case_insensitive.2.2.2 _ _ _ _ _ _ _ (by decide)⟩

/-- The user loop of trigger_check counts exactly: its alerts contribution is
the number of matching users with a truthy chat id whose send the transport
confirms, and its record list has one entry per matching user. -/
theorem triggerUsers_counts (transport : String → Bool) (s : AnalyzedSignal) :
    ∀ users : List User,
      (triggerUsers transport s users).1 = userSends transport s users
      ∧ (triggerUsers transport s users).2.length = userMatches s users := by
  intro users
  induction users with
  | nil => exact ⟨rfl, rfl⟩
  | cons u rest ih =>
    cases hkw : kwInter s.keywords u.watchlist with
    | nil =>
      simp [triggerUsers, userSends, userMatches, List.countP_cons, hkw,
        ih.1, ih.2]
    | cons k ks =>
      cases hc : (u.chatId != "") && transport u.chatId <;>
        simp [triggerUsers, userSends, userMatches, List.countP_cons, hkw, hc,
          ih.1, ih.2, Nat.add_comm]

/-- The signal loop of trigger_check sums the per-signal counts over the
admitted signals. -/
theorem triggerSignals_counts (transport : String → Bool) (users : List User) :
    ∀ analyzed : List AnalyzedSignal,
      (triggerSignals transport users analyzed).1
        = alertsSentCount transport users analyzed
      ∧ (triggerSignals transport users analyzed).2.length
        = matchesFoundCount users analyzed := by
  intro analyzed
  induction analyzed with
  | nil => exact ⟨rfl, rfl⟩
  | cons s rest ih =>
    cases hp : passesFilter s <;>
      simp [triggerSignals, alertsSentCount, matchesFoundCount,
        List.filter_cons, hp, ih.1, ih.2,
        (triggerUsers_counts transport s users).1,
        (triggerUsers_counts transport s users).2]

/-- C2: in the on-demand trigger path, matches_found counts every
(signal, user) keyword match among the admitted signals irrespective of the
transport outcome, while alerts_sent counts only the sends the transport
confirms (attempted only for truthy chat ids); in particular, for one
Negative signal matching two users' watchlists where the transport succeeds
for the first user's chat and fails for the second, the endpoint returns
alerts_sent = 1 and matches_found = 2. -/
theorem trigger_check_counts :
    ((trigger_check (fun _ => -mkRat 3 5) (fun c => c == "1")
        [{ id := "sig1", source := "Bloomberg",
           headline := "Bitcoin crashes 15% amid regulatory fears",
           content := "Markets tumble.", keywords := ["Bitcoin", "BTC"] }]
        [{ username := "alice", chatId := "1", watchlist := ["bitcoin"] },
         { username := "bob", chatId := "2", watchlist := ["btc", "eth"] }]).1
      = 1)
    ∧ ((trigger_check (fun _ => -mkRat 3 5) (fun c => c == "1")
        [{ id := "sig1", source := "Bloomberg",
           headline := "Bitcoin crashes 15% amid regulatory fears",
           content := "Markets tumble.", keywords := ["Bitcoin", "BTC"] }]
        [{ username := "alice", chatId := "1", watchlist := ["bitcoin"] },
         { username := "bob", chatId := "2", watchlist := ["btc", "eth"] }]).2.1
      = 2)
    ∧ (∀ (score : String → ℚ) (transport : String → Bool)
        (signals : List Signal) (users : List User),
        (trigger_check score transport signals users).1
          = alertsSentCount transport users
              (analyze_signals_with_llm score signals)
        ∧ (trigger_check score transport signals users).2.1
          = matchesFoundCount users (analyze_signals_with_llm score signals)) := by
  refine ⟨by decide, by decide, ?_⟩
  intro score transport signals users
  exact ⟨(triggerSignals_counts transport users _).1,
    (triggerSignals_counts transport users _).2⟩

/-- C7: when acquisition hands the scheduled run an empty signal sequence,
the run completes (the embedding is a total function), dispatches nothing,
and leaves the cooldown cache exactly as it was, for any user population,
timestamp and transport. -/
theorem empty_signals_no_dispatch (transport : String → Bool) (now : Int) :
    ∀ (users : List User) (cache : Cache),
      run_scheduled_alert_check transport now users [] cache = (cache, []) := by
  intro users
  induction users with
  | nil => intro cache; rfl
  | cons u rest ih =>
    intro cache
    simpa [run_scheduled_alert_check, runUsers, processUser]
      using ih cache
/-- The capped per-user loop dispatches exactly the first 2 - c of the
dispatches the uncapped loop would make from the same state: up to the cap
both behave identically, and at the cap the capped loop stops. -/
theorem processUser_take (transport : String → Bool) (now : Int) (u : User) :
    ∀ (signals : List Signal) (cache : Cache) (c : Nat),
      (processUser transport now u signals cache c).2
        = ((processUserNoCap transport now u signals cache).2).take (2 - c) := by
  intro signals
  induction signals with
  | nil => intro cache c; simp [processUser, processUserNoCap]
  | cons s rest ih =>
    intro cache c
    by_cases hcap : 2 ≤ c
    · rw [processUser_stop _ _ _ _ _ _ hcap, Nat.sub_eq_zero_of_le hcap]
      simp
    · have hstep : 2 - c = (2 - (c + 1)) + 1 := by omega
      cases hb : isBearish (lowerStr s.headline) with
      | false => simp [processUser, processUserNoCap, hcap, hb, ih]
      | true =>
        cases hkw : kwInter s.keywords u.watchlist with
        | nil => simp [processUser, processUserNoCap, hcap, hb, hkw, ih]
        | cons topic ks =>
          by_cases hcd : now - cacheGetD cache u.username topic < 14400
          · simp [processUser, processUserNoCap, hcap, hb, hkw, hcd, ih]
          · cases hsend : (u.chatId != "") && transport u.chatId with
            | false =>
              simp [processUser, processUserNoCap, hcap, hb, hkw, hcd, hsend, ih]
            | true =>
              rw [hstep]
              simp [processUser, processUserNoCap, hcap, hb, hkw, hcd, hsend,
                ih, hstep]

/-- C4: in one scheduled run a user receives at most 2 alerts; the capped
loop sends exactly the first two alerts the uncapped greedy loop would send
in fetch order (so the dispatched signals are the earliest eligible ones);
and once the per-run counter stands at 2 the loop processes no further
signal for that user: the cache and dispatch output are untouched. The outer
user loop starts every user at counter 0, which is the instance stated here. -/
theorem per_run_cap (transport : String → Bool) (now : Int) (u : User)
    (signals : List Signal) (cache : Cache) :
    ((processUser transport now u signals cache 0).2.length ≤ 2)
    ∧ ((processUser transport now u signals cache 0).2
        = ((processUserNoCap transport now u signals cache).2).take 2)
    ∧ (∀ (cache' : Cache) (sigs : List Signal),
        processUser transport now u sigs cache' 2 = (cache', [])) := by
  refine ⟨?_, ?_, ?_⟩
  · rw [processUser_take transport now u signals cache 0]
    simpa using List.length_take_le 2 _
  · simp [processUser_take transport now u signals cache 0]
  · intro cache' sigs
    exact processUser_stop transport now u sigs cache' 2 (le_refl 2)
/-- C3: the scheduled 4-hour cooldown gate for a (user, topic) pair. For a
bearish, watchlist-matching signal with matched topic t, truthy chat id and
confirming transport: if a record for (user, t) exists and the run time minus
it is strictly below 14400 seconds the dispatch is suppressed; if no record
exists, or a record exists with at least 14400 seconds elapsed, the dispatch
goes out. The code reads a missing record as timestamp 0
(sent_alert_cache[user].get(topic, 0)), so the no-record case additionally
uses that the run timestamp is itself at least 14400 - true of every real
clock reading, since time.time() is far above 14400 from 1970 on. -/
theorem cooldown_gate (transport : String → Bool) (now : Int) (u : User)
    (cache : Cache) (s : Signal) (t : String) (ts : List String)
    (hm : kwInter s.keywords u.watchlist = t :: ts)
    (hb : isBearish (lowerStr s.headline) = true)
    (hc : u.chatId ≠ "")
    (htr : transport u.chatId = true)
    (hnow : 14400 ≤ now) :
    ((∀ p : Int, cacheLookup cache u.username t = some p → now - p < 14400 →
        (processUser transport now u [s] cache 0).2 = [])
     ∧ (cacheLookup cache u.username t = none →
        (processUser transport now u [s] cache 0).2 ≠ [])
     ∧ (∀ p : Int, cacheLookup cache u.username t = some p → 14400 ≤ now - p →
        (processUser transport now u [s] cache 0).2 ≠ [])) := by
  have hc' : (u.chatId != "") = true := by
    simpa using hc
  refine ⟨?_, ?_, ?_⟩
  · intro p hp hlt
    simp [processUser, hb, hm, cacheGetD, hp, hlt]
  · intro hp
    have hlt : ¬now < 14400 := by omega
    simp [processUser, hb, hm, cacheGetD, hp, hc', htr, hlt]
  · intro p hp hge
    have hlt : ¬(now - p < 14400) := by omega
    simp [processUser, hb, hm, cacheGetD, hp, hc', htr, hlt]

/-- Witness for C3: with a record 10000 seconds old the dispatch is
suppressed; with no record, or with a record 18000 seconds old, it goes out. -/
theorem cooldown_gate_witness :
    ((processUser (fun _ => true) 1010000
        { username := "alice", chatId := "1", watchlist := ["bitcoin"] }
        [{ id := "s", source := "b", headline := "Bitcoin crashes 15%",
           content := "c", keywords := ["Bitcoin", "crypto"] }]
        [(("alice", "bitcoin"), 1000000)] 0).2 = [])
    ∧ ((processUser (fun _ => true) 1000000
        { username := "alice", chatId := "1", watchlist := ["bitcoin"] }
        [{ id := "s", source := "b", headline := "Bitcoin crashes 15%",
           content := "c", keywords := ["Bitcoin", "crypto"] }]
        [] 0).2 ≠ [])
    ∧ ((processUser (fun _ => true) 1018000
        { username := "alice", chatId := "1", watchlist := ["bitcoin"] }
        [{ id := "s", source := "b", headline := "Bitcoin crashes 15%",
           content := "c", keywords := ["Bitcoin", "crypto"] }]
        [(("alice", "bitcoin"), 1000000)] 0).2 ≠ []) :=
  ⟨(cooldown_gate (fun _ => true) 1010000 _ _ _ "bitcoin" []
      (by decide) (by decide) (by decide) rfl (by decide)).1
      1000000 (by decide) (by decide),
   (cooldown_gate (fun _ => true) 1000000 _ _ _ "bitcoin" []
      (by decide) (by decide) (by decide) rfl (by decide)).2.1
      (by decide),
   (cooldown_gate (fun _ => true) 1018000 _ _ _ "bitcoin" []
      (by decide) (by decide) (by decide) rfl (by decide)).2.2
      1000000 (by decide) (by decide)⟩
/-- Within the per-user loop, the cache entry of any (user, topic) pair is
either left exactly as it was, or some successful dispatch for that pair is
in the trace and the entry now reads the run timestamp. -/
theorem processUser_ledger (transport : String → Bool) (now : Int) (u : User)
    (uu tt : String) :
    ∀ (signals : List Signal) (cache : Cache) (c : Nat),
      cacheLookup (processUser transport now u signals cache c).1 uu tt
        = cacheLookup cache uu tt
      ∨ ∃ d, d ∈ (processUser transport now u signals cache c).2
          ∧ d.username = uu ∧ d.topic = tt
          ∧ cacheLookup (processUser transport now u signals cache c).1 uu tt
            = some now := by
  intro signals
  induction signals with
  | nil => intro cache c; exact Or.inl rfl
  | cons s rest ih =>
    intro cache c
    by_cases hcap : 2 ≤ c
    · rw [processUser_stop _ _ _ _ _ _ hcap]
      exact Or.inl rfl
    · cases hb : isBearish (lowerStr s.headline) with
      | false =>
        simpa [processUser, hcap, hb] using ih cache c
      | true =>
        cases hkw : kwInter s.keywords u.watchlist with
        | nil => simpa [processUser, hcap, hb, hkw] using ih cache c
        | cons topic ks =>
          by_cases hcd : now - cacheGetD cache u.username topic < 14400
          · simpa [processUser, hcap, hb, hkw, hcd] using ih cache c
          · cases hsend : (u.chatId != "") && transport u.chatId with
            | false =>
              simpa [processUser, hcap, hb, hkw, hcd, hsend] using ih cache c
            | true =>
              have hgoal := ih (((u.username, topic), now) :: cache) (c + 1)
              simp only [processUser, hcap, hb, hkw, hcd, hsend,
                if_neg hcap, if_true, if_false]
              rcases hgoal with hsame | ⟨d, hd, hdu, hdt, hval⟩
              · rw [cacheLookup_cons] at hsame
                by_cases he : (u.username, topic) = (uu, tt)
                · refine Or.inr ⟨⟨u.username, s.id, topic, u.chatId⟩,
                    ?_, ?_, ?_, ?_⟩
                  · simp [processUser, hcap, hb, hkw, hcd, hsend]
                  · exact congrArg Prod.fst he
                  · exact congrArg Prod.snd he
                  · simp_all
                · left
                  simp_all [processUser, hcap, hb, hkw, hcd, hsend]
              · refine Or.inr ⟨d, ?_, hdu, hdt, ?_⟩
                · simp [processUser, hcap, hb, hkw, hcd, hsend,
                    List.mem_cons]
                  right; exact_mod_cast hd
                · simp_all [processUser, hcap, hb, hkw, hcd, hsend]
/-- Every dispatch the per-user loop traces was sent to a truthy chat id and
confirmed by the transport. -/
theorem processUser_success (transport : String → Bool) (now : Int) (u : User) :
    ∀ (signals : List Signal) (cache : Cache) (c : Nat),
      ((processUser transport now u signals cache c).2).all
        (fun d => (d.chatId != "") && transport d.chatId) = true := by
  intro signals
  induction signals with
  | nil => intro cache c; rfl
  | cons s rest ih =>
    intro cache c
    by_cases hcap : 2 ≤ c
    · rw [processUser_stop _ _ _ _ _ _ hcap]; rfl
    · cases hb : isBearish (lowerStr s.headline) with
      | false => simpa [processUser, hcap, hb] using ih cache c
      | true =>
        cases hkw : kwInter s.keywords u.watchlist with
        | nil => simpa [processUser, hcap, hb, hkw] using ih cache c
        | cons topic ks =>
          by_cases hcd : now - cacheGetD cache u.username topic < 14400
          · simpa [processUser, hcap, hb, hkw, hcd] using ih cache c
          · cases hsend : (u.chatId != "") && transport u.chatId with
            | false =>
              simpa [processUser, hcap, hb, hkw, hcd, hsend] using ih cache c
            | true =>
              have hthis := ih (((u.username, topic), now) :: cache) (c + 1)
              simp [processUser, hcap, hb, hkw, hcd, hsend]
              intro x hx
              have hall := List.all_eq_true.mp hthis x hx
              simpa using hall

/-- Run-level version of processUser_ledger: across the whole user loop. -/
theorem runUsers_ledger (transport : String → Bool) (now : Int)
    (signals : List Signal) (uu tt : String) :
    ∀ (users : List User) (cache : Cache),
      cacheLookup (runUsers transport now signals users cache).1 uu tt
        = cacheLookup cache uu tt
      ∨ ∃ d, d ∈ (runUsers transport now signals users cache).2
          ∧ d.username = uu ∧ d.topic = tt
          ∧ cacheLookup (runUsers transport now signals users cache).1 uu tt
            = some now := by
  intro users
  induction users with
  | nil => intro cache; exact Or.inl rfl
  | cons u rest ih =>
    intro cache
    have h1 := processUser_ledger transport now u uu tt signals cache 0
    have h2 := ih (processUser transport now u signals cache 0).1
    simp only [runUsers]
    rcases h2 with hsame2 | ⟨d, hd, hdu, hdt, hval⟩
    · rcases h1 with hsame1 | ⟨d, hd, hdu, hdt, hval⟩
      · left; rw [hsame2, hsame1]
      · refine Or.inr ⟨d, ?_, hdu, hdt, ?_⟩
        · simp only [List.mem_append]; left; exact hd
        · rw [hsame2, hval]
    · refine Or.inr ⟨d, ?_, hdu, hdt, ?_⟩
      · simp only [List.mem_append]; right; exact hd
      · exact hval

/-- Run-level version of processUser_success. -/
theorem runUsers_success (transport : String → Bool) (now : Int)
    (signals : List Signal) :
    ∀ (users : List User) (cache : Cache),
      ((runUsers transport now signals users cache).2).all
        (fun d => (d.chatId != "") && transport d.chatId) = true := by
  intro users
  induction users with
  | nil => intro cache; rfl
  | cons u rest ih =>
    intro cache
    simp only [runUsers, List.all_append, Bool.and_eq_true]
    exact ⟨processUser_success transport now u signals cache 0,
      ih (processUser transport now u signals cache 0).1⟩

/-- C6: in the scheduled path, the cooldown ledger entry of every
(user, topic) pair is either untouched by the run or was written to the run
timestamp by a dispatch in the run's trace for exactly that pair - and every
dispatch in the trace is one the transport confirmed to a truthy chat id.
A failed or skipped send therefore leaves the pair's ledger entry unchanged. -/
theorem ledger_updated_only_on_success (transport : String → Bool) (now : Int)
    (users : List User) (signals : List Signal) (cache : Cache)
    (u t : String) :
    (cacheLookup
        (run_scheduled_alert_check transport now users signals cache).1 u t
        = cacheLookup cache u t
      ∨ ∃ d, d ∈ (run_scheduled_alert_check transport now users signals cache).2
          ∧ d.username = u ∧ d.topic = t
          ∧ cacheLookup
              (run_scheduled_alert_check transport now users signals cache).1 u t
            = some now)
    ∧ ((run_scheduled_alert_check transport now users signals cache).2).all
        (fun d => (d.chatId != "") && transport d.chatId) = true :=
  ⟨runUsers_ledger transport now signals u t users cache,
   runUsers_success transport now signals users cache⟩
/-- The scheduled per-user loop never reads a signal's content field:
rewriting every content leaves the loop's output unchanged. -/
theorem processUser_content (transport : String → Bool) (now : Int) (u : User)
    (g : Signal → String) :
    ∀ (signals : List Signal) (cache : Cache) (c : Nat),
      processUser transport now u
          (signals.map (fun s => { s with content := g s })) cache c
        = processUser transport now u signals cache c := by
  intro signals
  induction signals with
  | nil => intro cache c; rfl
  | cons s rest ih =>
    intro cache c
    by_cases hcap : 2 ≤ c
    · rw [List.map_cons, processUser_stop _ _ _ _ _ _ hcap,
        processUser_stop _ _ _ _ _ _ hcap]
    · cases hb : isBearish (lowerStr s.headline) with
      | false => simp [processUser, hcap, hb, ih]
      | true =>
        cases hkw : kwInter s.keywords u.watchlist with
        | nil => simp [processUser, hcap, hb, hkw, ih]
        | cons topic ks =>
          by_cases hcd : now - cacheGetD cache u.username topic < 14400
          · simp [processUser, hcap, hb, hkw, hcd, ih]
          · cases hsend : (u.chatId != "") && transport u.chatId <;>
              simp [processUser, hcap, hb, hkw, hcd, hsend, ih]

/-- Content-independence lifted over the user loop of the scheduled run. -/
theorem runUsers_content (transport : String → Bool) (now : Int)
    (signals : List Signal) (g : Signal → String) :
    ∀ (users : List User) (cache : Cache),
      runUsers transport now
          (signals.map (fun s => { s with content := g s })) users cache
        = runUsers transport now signals users cache := by
  intro users
  induction users with
  | nil => intro cache; rfl
  | cons u rest ih =>
    intro cache
    simp [runUsers, processUser_content, ih]

/-- C9: scheduled eligibility is the bearish-headline test and nothing else:
a signal whose lowercased headline contains no bearish keyword is skipped
outright by the per-user loop; the signal's content field plays no role in
the whole run (rewriting all contents changes nothing, and the run never
invokes the sentiment classifier); and the spec's own scenario - headline
"Bitcoin crashes 15%", keywords Bitcoin/crypto, watchlist bitcoin, empty
ledger - produces exactly one dispatch with matched topic "bitcoin" and a
ledger entry for (user, bitcoin) at the run's timestamp. -/
theorem scheduled_eligibility_bearish_headline :
    (∀ (transport : String → Bool) (now : Int) (u : User) (s : Signal)
        (rest : List Signal) (cache : Cache) (c : Nat),
        isBearish (lowerStr s.headline) = false →
        processUser transport now u (s :: rest) cache c
          = processUser transport now u rest cache c)
    ∧ (∀ (transport : String → Bool) (now : Int) (users : List User)
        (signals : List Signal) (cache : Cache) (g : Signal → String),
        run_scheduled_alert_check transport now users
            (signals.map (fun s => { s with content := g s })) cache
          = run_scheduled_alert_check transport now users signals cache)
    ∧ (run_scheduled_alert_check (fun _ => true) 1000000
        [{ username := "user", chatId := "1", watchlist := ["bitcoin"] }]
        [{ id := "sig2", source := "Bloomberg",
           headline := "Bitcoin crashes 15%", content := "regulatory fears",
           keywords := ["Bitcoin", "crypto"] }] []
        = ([(("user", "bitcoin"), 1000000)],
           [{ username := "user", signalId := "sig2", topic := "bitcoin",
              chatId := "1" }])) := by
  refine ⟨?_, ?_, by decide⟩
  · intro transport now u s rest cache c hb
    by_cases hcap : 2 ≤ c
    · rw [processUser_stop _ _ _ _ _ _ hcap,
        processUser_stop _ _ _ _ _ _ hcap]
    · simp [processUser, hcap, hb]
  · intro transport now users signals cache g
    exact runUsers_content transport now signals g users cache

/-- Witness for C9's skip hypothesis at a concrete non-bearish signal. -/
theorem scheduled_eligibility_bearish_headline_witness :
    processUser (fun _ => true) 1000000
      { username := "u", chatId := "1", watchlist := ["apple"] }
      [{ id := "s", source := "r", headline := "Apple posts record earnings",
         content := "c", keywords := ["Apple"] }] [] 0
      = processUser (fun _ => true) 1000000
        { username := "u", chatId := "1", watchlist := ["apple"] } [] [] 0 :=
  scheduled_eligibility_bearish_headline.1 (fun _ => true) 1000000
    _ _ [] [] 0 (by decide)
